import Mathlib

/-!
SmartInvoice poller — shallow embedding.

A verification development for the SmartInvoice background job: a poller
that uploads pending invoice PDFs from a database table to Google Drive,
flips the row's `DOWNLOAD` flag from `'F'` (Pending) to `'T'` (Uploaded),
sends the customer an SMS with the share link, and prunes uploaded PDFs
older than seven days.

Strings manipulated character-by-character in the source (phone numbers,
SMS gateway responses, SMS credentials) are embedded as `List Char`;
strings that are only carried around opaquely (file names, links) stay
`String`.  Every network / database interaction is made explicit as an
environment field (success value or failure marker), and the observable
side effects of one row's processing are collected in an `Effect` trace.
-/

/-- JS `String.prototype.trim`: strip leading and trailing whitespace. -/
def jsTrim (s : List Char) : List Char :=
  ((s.dropWhile Char.isWhitespace).reverse.dropWhile Char.isWhitespace).reverse

/-- Worker for `jsSplit`: `acc` holds the current field, reversed. -/
def jsSplitGo (sep : Char) : List Char → List Char → List (List Char)
  | [], acc => [acc.reverse]
  | c :: rest, acc =>
      if c = sep then acc.reverse :: jsSplitGo sep rest []
      else jsSplitGo sep rest (c :: acc)

/-- JS `String.prototype.split(sep)` for a one-character separator:
always returns at least one (possibly empty) field. -/
def jsSplit (sep : Char) (s : List Char) : List (List Char) :=
  jsSplitGo sep s []

/-- The regex `/^94\d{9}$/` from the poller's phone validation:
the characters `9`, `4` followed by exactly nine ASCII digits. -/
def matches94 (raw : List Char) : Bool :=
  raw.length == 11 && raw.take 2 == ['9', '4'] && (raw.drop 2).all Char.isDigit

/-- The regex `/^0\d{9}$/` from the poller's phone validation:
the character `0` followed by exactly nine ASCII digits. -/
def matchesLocal (raw : List Char) : Bool :=
  raw.length == 10 && raw.take 1 == ['0'] && (raw.drop 1).all Char.isDigit

/-- The poller's phone validation / normalization block:
`/^94\d{9}$/` rewrites `"94" ++ rest` to `"0" ++ rest`
(`"0" + rawPhone.slice(2)`); `/^0\d{9}$/` passes the number through;
anything else yields `none` and the row is skipped (`continue`). -/
def validatePhone (raw : List Char) : Option (List Char) :=
  if matches94 raw then some ('0' :: raw.drop 2)
  else if matchesLocal raw then some raw
  else none

/-! ## Notification gateway (`sendSMS`) -/

/-- A row of `tb_SMS_MAIN`: the customer's SMS profile.  Mirrors the
columns the code reads: `SMARTINVOICE_ACTIVE` (`'T'` = opt-in active),
`SMS_USERNAME`, `SMS_PASSWORD`. -/
structure SMSProfile where
  smartInvoiceActive : Char
  smsUsername : List Char
  smsPassword : List Char
deriving DecidableEq, Repr

/-- The external world as seen by one `sendSMS` call: the
`tb_SMS_MAIN` lookup result (`none` = empty recordset) and the raw body
of the gateway's HTTP response (`none` = `axios.get` threw). -/
structure SMSEnv where
  profile : Option SMSProfile
  gatewayResponse : Option (List Char)
deriving DecidableEq, Repr

/-- Observable side effect of processing one row, in order of
occurrence: the Drive upload attempt, the `UPDATE ... SET DOWNLOAD='T'`
statement, the HTTP GET to the SMS gateway, and the
`INSERT INTO tb_SMS_LOG` statement. -/
inductive Effect where
  | uploadAttempt (fileName : String)
  | setDownloadT (idx : Nat)
  | gatewayCall (phone : List Char)
  | insertLog (customerId : Nat) (smsUser smsPassword phone : List Char) (link : String)
deriving DecidableEq, Repr

/-- How one `sendSMS` call ended.  `sendSMS` wraps its whole body in
`try/catch`, so it returns normally in every case. -/
inductive SMSOutcome where
  | noCustomer
  | notActive
  | sent (msgId : Option (List Char))
  | gatewayRejected (detail : Option (List Char))
  | httpErrorCaught
deriving DecidableEq, Repr

structure SendSMSResult where
  outcome : SMSOutcome
  trace : List Effect
deriving DecidableEq, Repr

/-- `sendSMS(phone, customerID, link)`: look up the customer's SMS
profile; empty recordset → warn and return; `SMARTINVOICE_ACTIVE ≠ 'T'`
→ warn and return; otherwise GET the gateway, split the trimmed
response on `':'`, and iff the trimmed first token is exactly `"OK"`
insert a `tb_SMS_LOG` record `(customer, user, password, phone, link)`.
A thrown HTTP error is swallowed by the function's own `catch`. -/
def sendSMS (phone : List Char) (customerID : Nat) (link : String)
    (env : SMSEnv) : SendSMSResult :=
  match env.profile with
  | none => ⟨.noCustomer, []⟩
  | some prof =>
    if prof.smartInvoiceActive = 'T' then
      let smsUser := jsTrim prof.smsUsername
      let smsPassword := jsTrim prof.smsPassword
      match env.gatewayResponse with
      | none => ⟨.httpErrorCaught, [.gatewayCall phone]⟩
      | some respData =>
        let responseText := jsTrim respData
        let res := jsSplit ':' responseText
        if jsTrim (res.headD []) = "OK".toList then
          ⟨.sent (res.get? 1),
            [.gatewayCall phone,
             .insertLog customerID smsUser smsPassword phone link]⟩
        else
          ⟨.gatewayRejected (res.get? 1), [.gatewayCall phone]⟩
    else ⟨.notActive, []⟩

/-! ## Invoice poll loop: one row, one tick -/

/-- A row of `tb_SMART_INVOICE` as the poller reads it: `IDX`,
`CUSTOMERID`, `MOBILENO`, `FILENAME`, `PDFDATA`, `DOWNLOAD`
(`'F'` = Pending, `'T'` = Uploaded). -/
structure InvoiceRow where
  idx : Nat
  customerId : Nat
  mobileNo : List Char
  fileName : String
  pdfData : List Nat
  download : Char
deriving DecidableEq, Repr

/-- The external world as seen by one row's processing:
`uploadResult` is `uploadToDrive`'s `webViewLink` (`none` = the upload
or the permission grant threw), `updateOk` is whether the
`UPDATE ... SET DOWNLOAD='T'` statement succeeded, and `smsEnv` feeds
the nested `sendSMS` call. -/
structure RowEnv where
  uploadResult : Option String
  updateOk : Bool
  smsEnv : SMSEnv
deriving DecidableEq, Repr

/-- How one row's iteration of the tick loop ended.  `rowErrorCaught`
is the `catch (rowErr)` at the row boundary: the row's `DOWNLOAD` flag
is left as it was so the row is retried next poll. -/
inductive RowOutcome where
  | skippedInvalidPhone
  | rowErrorCaught
  | done (sms : SMSOutcome)
deriving DecidableEq, Repr

structure RowResult where
  outcome : RowOutcome
  finalDownload : Char
  trace : List Effect
deriving DecidableEq, Repr

/-- The body of `for (const row of result.recordset)`: validate and
normalize the phone (`continue` on failure), upload the PDF, persist
`DOWNLOAD = 'T'` for the row's `IDX`, then call `sendSMS`.  An error
thrown by the upload or the update is caught at the row boundary and
leaves the flag untouched. -/
def processRow (row : InvoiceRow) (env : RowEnv) : RowResult :=
  match validatePhone row.mobileNo with
  | none => ⟨.skippedInvalidPhone, row.download, []⟩
  | some customerPhone =>
    match env.uploadResult with
    | none => ⟨.rowErrorCaught, row.download, [.uploadAttempt row.fileName]⟩
    | some link =>
      if env.updateOk then
        let smsRes := sendSMS customerPhone row.customerId link env.smsEnv
        ⟨.done smsRes.outcome, 'T',
          .uploadAttempt row.fileName :: .setDownloadT row.idx :: smsRes.trace⟩
      else ⟨.rowErrorCaught, row.download, [.uploadAttempt row.fileName]⟩

/-- Number of Drive upload attempts in a trace. -/
def countUploads (tr : List Effect) : Nat :=
  tr.countP fun e => match e with
    | .uploadAttempt _ => true
    | _ => false

/-! ## `connectToDatabase` and the poll tick -/

/-- Result of `connectToDatabase` (src/config/db.js): returns the
cached pool, or connects; on connection failure it logs and calls
`process.exit(1)` — it never throws to its caller. -/
inductive ConnectResult where
  | gotPool
  | exitedProcess (code : Nat)
deriving DecidableEq, Repr

/-- `connectToDatabase`: reuse the module-level `pool` if present,
else `mssql.connect`; a failed connect exits the process with code 1. -/
def connectToDatabase (poolExists connectOk : Bool) : ConnectResult :=
  if poolExists then .gotPool
  else if connectOk then .gotPool
  else .exitedProcess 1

/-- The external world as seen by one poll tick: whether the pool was
already created, whether a fresh `mssql.connect` would succeed, whether
the `SELECT ... WHERE DOWNLOAD = 'F'` query succeeds, the pending rows
it returns, and each row's environment. -/
structure TickEnv where
  poolExists : Bool
  connectOk : Bool
  queryOk : Bool
  rows : List InvoiceRow
  rowEnvs : List RowEnv
deriving Repr

/-- How one firing of the poll `setInterval` ended: the process was
terminated by `connectToDatabase`, the tick was abandoned by the
`catch (pollErr)` at the tick boundary (process keeps running), or the
loop ran over every pending row. -/
inductive TickResult where
  | exited (code : Nat)
  | tickAborted
  | completed (results : List RowOutcome)
deriving DecidableEq, Repr

/-- Did this tick terminate the whole process? -/
def TickResult.isExit : TickResult → Bool
  | .exited _ => true
  | _ => false

/-- Process every pending row in order, one environment per row; each
row's errors are absorbed by its own `catch` inside `processRow`. -/
def processRows (rows : List InvoiceRow) (envs : List RowEnv) : List RowOutcome :=
  List.zipWith (fun r e => (processRow r e).outcome) rows envs

/-- The body of the poll `setInterval`: get the pool (which may exit
the process), run the pending-rows query (failure → `catch (pollErr)`,
tick abandoned), then process each row in sequence. -/
def runTick (env : TickEnv) : TickResult :=
  match connectToDatabase env.poolExists env.connectOk with
  | .exitedProcess c => .exited c
  | .gotPool =>
    if env.queryOk then .completed (processRows env.rows env.rowEnvs)
    else .tickAborted

/-! ## Retention sweep (`deleteOldFiles`) -/

/-- A Drive file as `deleteOldFiles` sees it.  `createdTime` is a
timestamp in milliseconds. -/
structure DriveFile where
  id : Nat
  name : String
  createdTime : Int
  mimeType : String
  parent : Nat
  trashed : Bool
deriving DecidableEq, Repr

/-- Seven days in milliseconds: the cutoff `oneWeekAgo` computed at
the top of `deleteOldFiles` (`setDate(getDate() - 7)`). -/
def oneWeekAgo (now : Int) : Int :=
  now - 7 * 24 * 60 * 60 * 1000

/-- The `drive.files.list` query of the sweep: PDFs (`mimeType =
'application/pdf'`), not trashed, directly inside `folderId`.  The
query's `orderBy createdTime desc` only fixes the order the server
returns; it does not change which files are listed. -/
def listFolderPdfs (files : List DriveFile) (folderId : Nat) : List DriveFile :=
  files.filter fun f =>
    f.parent == folderId && f.mimeType == "application/pdf" && !f.trashed

/-- The deletion loop of `deleteOldFiles` over the listed files, in
listing order.  `deleteOk` says whether `drive.files.delete` succeeds
for a given file id.  The loop sits inside the function's single
`try`; a thrown deletion error is caught *outside* the loop, so the
remaining files are not visited. -/
def sweepGo (cutoff : Int) (deleteOk : Nat → Bool) : List DriveFile → List DriveFile
  | [] => []
  | f :: rest =>
    if f.createdTime < cutoff then
      if deleteOk f.id then f :: sweepGo cutoff deleteOk rest
      else []
    else sweepGo cutoff deleteOk rest

/-- `deleteOldFiles(auth, folderId)`: list the folder's PDFs, delete
each one strictly older than a week; returns the files actually
deleted.  Its `catch` swallows any error, so the caller never sees a
failure. -/
def deleteOldFiles (files : List DriveFile) (folderId : Nat) (now : Int)
    (deleteOk : Nat → Bool) : List DriveFile :=
  sweepGo (oneWeekAgo now) deleteOk (listFolderPdfs files folderId)

/-! ## Credential store (`authorize` and the token listeners) -/

/-- The persisted `token.json` as a field/value record (insertion
order preserved, first binding of a key wins on lookup). -/
abbrev TokenRecord := List (String × String)

/-- Field lookup in a token record. -/
def TokenRecord.get (t : TokenRecord) (k : String) : Option String :=
  (t.find? fun p => p.1 == k).map (·.2)

/-- Set one field the way JS property assignment does: overwrite the
field in place if the key is present, else append it at the end. -/
def setField : TokenRecord → String → String → TokenRecord
  | [], k, v => [(k, v)]
  | p :: rest, k, v =>
      if p.1 == k then (k, v) :: rest else p :: setField rest k v

/-- JS `{ ...a, ...b }`: fold `b`'s fields over `a`, later fields
overriding earlier ones. -/
def jsSpread (a : TokenRecord) : TokenRecord → TokenRecord
  | [] => a
  | (k, v) :: rest => jsSpread (setField a k v) rest

/-- The `tokens` listener registered on the load-existing-token path:
`const updatedToken = { ...token, ...tokens }` — the refresh event's
fields merged over the token record loaded from `token.json` at
startup; the merge result is written to `token.json`. -/
def existingTokensListener (startupToken eventTokens : TokenRecord) : TokenRecord :=
  jsSpread startupToken eventTokens

/-- The `tokens` listener registered after manual authentication:
`const updatedToken = { ...tokens }` — a plain copy of the refresh
event's fields (the callback parameter shadows the exchanged tokens),
written to `token.json` as-is. -/
def manualTokensListener (eventTokens : TokenRecord) : TokenRecord :=
  eventTokens

/-- Outcome of the proactive `oAuth2Client.getAccessToken()` probe in
`authorize`: success, a failure whose message contains
`invalid_grant`, or any other failure. -/
inductive RefreshOutcome where
  | refreshed
  | invalidGrant
  | otherFailure
deriving DecidableEq, Repr

/-- What `authorize()` produced: a client running on the persisted
token (returned inside the token branch), a client produced by the
interactive manual flow (carrying the tokens written to `token.json`),
or a thrown error — which the main poller's catch turns into
`process.exit(1)`. -/
inductive AuthResult where
  | existingClient
  | manualClient (tokens : TokenRecord)
  | failure (msg : String)
deriving DecidableEq, Repr

/-- Is the result the thrown-error case? -/
def AuthResult.isFailure : AuthResult → Bool
  | .failure _ => true
  | _ => false

/-- The external world as seen by `authorize()`: whether the
credentials file exists and parses, whether `token.json` exists, its
parsed contents (`none` = `JSON.parse` threw), the refresh probe's
outcome, and the result of the interactive `getToken(code)` exchange
(`none` = it threw). -/
structure AuthEnv where
  credentialsOk : Bool
  tokenFileExists : Bool
  tokenFile : Option TokenRecord
  refreshOutcome : RefreshOutcome
  exchange : Option TokenRecord
deriving DecidableEq, Repr

/-- The `if (fs.existsSync(TOKEN_PATH))` branch of `authorize`:
`some r` means the branch returned `r`; `none` means it fell through
to manual authentication — because the file is absent, or because the
`catch (tokenErr)` caught a parse error, a missing `refresh_token`,
the `invalid_grant` rethrow, or any other refresh failure. -/
def tokenPathReturn (env : AuthEnv) : Option AuthResult :=
  if env.tokenFileExists then
    match env.tokenFile with
    | none => none
    | some token =>
      if (token.get "refresh_token").isNone then none
      else
        match env.refreshOutcome with
        | .refreshed => some .existingClient
        | .invalidGrant => none
        | .otherFailure => none
  else none

/-- The manual-authentication tail of `authorize`: prompt for a code,
exchange it; a thrown exchange error propagates to the outer catch
(and out of `authorize`), an exchange without `refresh_token` throws,
otherwise the tokens are persisted and a client is returned. -/
def manualAuthFlow (env : AuthEnv) : AuthResult :=
  match env.exchange with
  | none => .failure "token exchange failed"
  | some tokens =>
    if (tokens.get "refresh_token").isNone then
      .failure "No refresh_token received."
    else .manualClient tokens

/-- `authorize()`: missing credentials file throws; otherwise try the
persisted-token branch and, when it falls through, run the manual
interactive flow. -/
def authorize (env : AuthEnv) : AuthResult :=
  if env.credentialsOk then
    match tokenPathReturn env with
    | some r => r
    | none => manualAuthFlow env
  else .failure "Credentials file not found"

/-- The main poller's startup `catch`: an error thrown by `authorize`
(or folder setup) logs and calls `process.exit(1)`; a returned client
lets the poller start. -/
def startupExitCode (r : AuthResult) : Option Nat :=
  match r with
  | .failure _ => some 1
  | _ => none

/-! ## Concrete instances used to exercise the definitions -/

/-- An opted-in customer profile. -/
def cProfileActive : SMSProfile := ⟨'T', "user".toList, "pw".toList⟩

/-- A profile whose opt-in flag is not `'T'`. -/
def cProfileInactive : SMSProfile := ⟨'F', "user".toList, "pw".toList⟩

/-- Active profile, gateway answers `OK:123`. -/
def cSmsEnvOk : SMSEnv := ⟨some cProfileActive, some "OK:123".toList⟩

/-- Active profile, gateway answers a rejection. -/
def cSmsEnvFail : SMSEnv := ⟨some cProfileActive, some "ERR:no credit".toList⟩

/-- Opted-out profile. -/
def cSmsEnvInactive : SMSEnv := ⟨some cProfileInactive, some "OK:123".toList⟩

/-- A pending row with an already-local phone number. -/
def cRowLocal : InvoiceRow := ⟨1, 7, "0771234567".toList, "f.pdf", [37, 80, 68, 70], 'F'⟩

/-- A pending row with an international-form phone number. -/
def cRow94 : InvoiceRow := ⟨2, 8, "94771234567".toList, "g.pdf", [], 'F'⟩

/-- A pending row with a malformed phone number. -/
def cRowBad : InvoiceRow := ⟨3, 9, "123".toList, "h.pdf", [], 'F'⟩

/-- Upload and update succeed, active customer, gateway accepts. -/
def cEnvFull : RowEnv := ⟨some "https://drive/x", true, cSmsEnvOk⟩

/-- Upload and update succeed, customer opted out. -/
def cEnvInactive : RowEnv := ⟨some "https://drive/x", true, cSmsEnvInactive⟩

/-- A tick on an established pool whose pending-rows query fails. -/
def cTickQueryFail : TickEnv := ⟨true, false, false, [], []⟩

/-- A fully successful one-row tick. -/
def cTickOk : TickEnv := ⟨true, true, true, [cRowLocal], [cEnvFull]⟩

/-- A reference instant for the sweep; the cutoff `oneWeekAgo cNow` is 1. -/
def cNow : Int := 7 * 24 * 60 * 60 * 1000 + 1

/-- An aged PDF (created at 0, strictly before the cutoff). -/
def cOldFileA : DriveFile := ⟨1, "a.pdf", 0, "application/pdf", 5, false⟩

/-- A second aged PDF. -/
def cOldFileB : DriveFile := ⟨2, "b.pdf", 0, "application/pdf", 5, false⟩

/-- A PDF created exactly at the cutoff (not strictly older). -/
def cFreshFile : DriveFile := ⟨3, "c.pdf", oneWeekAgo cNow, "application/pdf", 5, false⟩

/-- `authorize`'s world: credentials fine, a persisted token with a
refresh token, the proactive refresh reports `invalid_grant`, and the
interactive exchange would succeed. -/
def c9Env : AuthEnv :=
  ⟨true, true, some [("refresh_token", "r"), ("access_token", "a")],
   .invalidGrant, some [("refresh_token", "r2"), ("access_token", "b")]⟩

/-! ## Helper lemmas -/

/-- A number accepted by the local-form regex has ten characters. -/
theorem matchesLocal_length {p : List Char} (h : matchesLocal p = true) :
    p.length = 10 := by
  simp only [matchesLocal, Bool.and_eq_true, beq_iff_eq] at h
  exact h.1.1

/-- A local-form number is not international-form (lengths differ). -/
theorem matches94_of_local {p : List Char} (h : matchesLocal p = true) :
    matches94 p = false := by
  have hl := matchesLocal_length h
  simp [matches94, hl]

/-- Whatever `validatePhone` outputs is in local form. -/
theorem validatePhone_localForm {raw p : List Char}
    (h : validatePhone raw = some p) : matchesLocal p = true := by
  unfold validatePhone at h
  by_cases h94 : matches94 raw = true
  · rw [if_pos h94] at h
    obtain rfl : '0' :: raw.drop 2 = p := by injection h
    simp only [matches94, Bool.and_eq_true, beq_iff_eq] at h94
    obtain ⟨⟨hlen, _⟩, hdig⟩ := h94
    simp [matchesLocal, List.length_drop, hlen, hdig]
  · rw [if_neg h94] at h
    by_cases hloc : matchesLocal raw = true
    · rw [if_pos hloc] at h
      obtain rfl : raw = p := by injection h
      exact hloc
    · rw [if_neg hloc] at h
      exact absurd h (by simp)

/-- The trace of one `sendSMS` call is one of three shapes: empty,
just the gateway GET, or the gateway GET followed by the log insert. -/
theorem sendSMS_trace_shape (phone : List Char) (cid : Nat) (link : String)
    (env : SMSEnv) :
    (sendSMS phone cid link env).trace = [] ∨
    (sendSMS phone cid link env).trace = [Effect.gatewayCall phone] ∨
    ∃ prof, env.profile = some prof ∧
      (sendSMS phone cid link env).trace =
        [Effect.gatewayCall phone,
         Effect.insertLog cid (jsTrim prof.smsUsername) (jsTrim prof.smsPassword)
           phone link] := by
  rcases env with ⟨profile, gatewayResponse⟩
  rcases profile with _ | prof
  · left; rfl
  · by_cases ha : prof.smartInvoiceActive = 'T'
    · rcases gatewayResponse with _ | respData
      · right; left
        simp only [sendSMS]
        rw [if_pos ha]
      · by_cases hok : jsTrim ((jsSplit ':' (jsTrim respData)).headD []) = "OK".toList
        · right; right
          refine ⟨prof, rfl, ?_⟩
          simp only [sendSMS]
          rw [if_pos ha, if_pos hok]
        · right; left
          simp only [sendSMS]
          rw [if_pos ha, if_neg hok]
    · left
      simp only [sendSMS]
      rw [if_neg ha]

/-- `sendSMS` only ever calls the gateway with the phone it was given. -/
theorem sendSMS_gatewayCall_eq {q phone : List Char} {cid : Nat} {link : String}
    {env : SMSEnv} (h : Effect.gatewayCall q ∈ (sendSMS phone cid link env).trace) :
    q = phone := by
  rcases sendSMS_trace_shape phone cid link env with ht | ht | ⟨prof, _, ht⟩ <;>
    rw [ht] at h <;> simp at h
  · exact h
  · exact h

/-- The trace of `sendSMS` never carries a Drive upload. -/
theorem sendSMS_countUploads {phone : List Char} {cid : Nat} {link : String}
    {env : SMSEnv} : countUploads (sendSMS phone cid link env).trace = 0 := by
  rcases sendSMS_trace_shape phone cid link env with ht | ht | ⟨prof, _, ht⟩ <;>
    rw [ht] <;> simp [countUploads]

/-- Setting a field makes it readable. -/
theorem get_setField_self (t : TokenRecord) (k v : String) :
    (setField t k v).get k = some v := by
  induction t with
  | nil => simp [setField, TokenRecord.get]
  | cons p rest ih =>
    by_cases hp : p.1 == k
    · simp [setField, hp, TokenRecord.get]
    · simp [setField, hp, TokenRecord.get, List.find?] at ih ⊢
      exact ih

/-- Setting a field leaves every other field unchanged. -/
theorem get_setField_ne (t : TokenRecord) (k v : String) {k' : String}
    (h : k' ≠ k) : (setField t k v).get k' = t.get k' := by
  induction t with
  | nil => simp [setField, TokenRecord.get, bne, Ne.symm h]
  | cons p rest ih =>
    by_cases hp : p.1 == k
    · have hp' : p.1 = k := by simpa using hp
      simp [setField, hp, TokenRecord.get, List.find?, Ne.symm h, hp',
        show (k == k') = false by simpa using Ne.symm h,
        show (k' == k) = false by simpa using h]
    · have hp' : ¬ p.1 = k := by simpa using hp
      by_cases hpk : p.1 == k'
      · simp [setField, hp, TokenRecord.get, List.find?, hpk]
      · simp [setField, hp, TokenRecord.get, List.find?, hpk] at ih ⊢
        exact ih

/-- A key that appears in no binding reads as `none`. -/
theorem get_eq_none_of_not_mem_keys {t : TokenRecord} {k : String}
    (h : k ∉ t.map Prod.fst) : t.get k = none := by
  induction t with
  | nil => rfl
  | cons p rest ih =>
    simp only [List.map_cons, List.mem_cons] at h
    push_neg at h
    have hp : (p.1 == k) = false := by simpa using fun hh => h.1 hh.symm
    simp only [TokenRecord.get, List.find?, hp] at ih ⊢
    exact ih h.2

/-- Spreading fields over `a` does not touch keys absent from the
spread fields. -/
theorem jsSpread_get_absent (b : TokenRecord) :
    ∀ (a : TokenRecord) (k : String), b.get k = none →
      (jsSpread a b).get k = a.get k := by
  induction b with
  | nil => intro a k _; rfl
  | cons p rest ih =>
    intro a k h
    rcases p with ⟨k0, v0⟩
    simp only [TokenRecord.get, List.find?] at h
    by_cases hk : (k0 == k)
    · simp [hk] at h
    · simp only [hk] at h
      have hrest : TokenRecord.get rest k = none := by
        simp only [TokenRecord.get, h, Option.map_none']
      have hne : k ≠ k0 := fun he => hk (by simp [he])
      rw [show jsSpread a ((k0, v0) :: rest) = jsSpread (setField a k0 v0) rest from rfl,
        ih (setField a k0 v0) k hrest, get_setField_ne _ _ _ hne]

/-- When the spread fields have pairwise distinct keys, a key they do
contain reads back as the spread value. -/
theorem jsSpread_get_present (b : TokenRecord) :
    ∀ (a : TokenRecord) (k : String) (v : String),
      (b.map Prod.fst).Nodup → b.get k = some v →
      (jsSpread a b).get k = some v := by
  induction b with
  | nil => intro a k v _ h; simp [TokenRecord.get] at h
  | cons p rest ih =>
    intro a k v hnd h
    rcases p with ⟨k0, v0⟩
    simp only [List.map_cons, List.nodup_cons] at hnd
    simp only [TokenRecord.get, List.find?] at h
    by_cases hk : (k0 == k)
    · have hk' : k0 = k := by simpa using hk
      simp only [hk] at h
      obtain rfl : v0 = v := by simpa using h
      subst hk'
      have hrest : TokenRecord.get rest k0 = none :=
        get_eq_none_of_not_mem_keys hnd.1
      rw [show jsSpread a ((k0, v0) :: rest) = jsSpread (setField a k0 v0) rest from rfl,
        jsSpread_get_absent rest _ _ hrest, get_setField_self]
    · simp only [hk] at h
      have hrest : TokenRecord.get rest k = some v := by
        simp only [TokenRecord.get, h]
      exact ih (setField a k0 v0) k v hnd.2 hrest

/-- When every deletion succeeds, the sweep loop is a plain filter. -/
theorem sweepGo_allOk (cutoff : Int) (l : List DriveFile) :
    sweepGo cutoff (fun _ => true) l = l.filter (fun f => f.createdTime < cutoff) := by
  induction l with
  | nil => rfl
  | cons f rest ih =>
    by_cases hc : f.createdTime < cutoff
    · simp [sweepGo, hc, List.filter_cons, ih]
    · simp [sweepGo, hc, List.filter_cons, ih]

/-! ## The claims -/

/-- Claim C2: phone validation in the poll loop — an input of the
shape `94` + nine digits becomes the same digits with the leading `94`
replaced by `0`; an input of the shape `0` + nine digits passes
through unchanged; any other input makes the loop skip the row, with
no effect and the `DOWNLOAD` flag left as it was. -/
theorem C2_phoneNormalization (row : InvoiceRow) (env : RowEnv) :
    (matches94 row.mobileNo = true →
      validatePhone row.mobileNo = some ('0' :: row.mobileNo.drop 2))
    ∧ (matchesLocal row.mobileNo = true →
      validatePhone row.mobileNo = some row.mobileNo)
    ∧ (matches94 row.mobileNo = false → matchesLocal row.mobileNo = false →
      processRow row env = ⟨.skippedInvalidPhone, row.download, []⟩) := by
  refine ⟨fun h94 => ?_, fun hloc => ?_, fun h94 hloc => ?_⟩
  · simp [validatePhone, h94]
  · simp [validatePhone, matches94_of_local hloc, hloc]
  · simp [processRow, validatePhone, h94, hloc]

/-- Claim C2, exercised: `94771234567` normalizes to `0771234567`,
`0771234567` passes through, and a row with phone `123` is skipped
with its state unchanged and an empty effect trace. -/
theorem C2_phoneNormalization_witness :
    (matches94 cRow94.mobileNo = true
      ∧ validatePhone cRow94.mobileNo = some ('0' :: cRow94.mobileNo.drop 2)
      ∧ '0' :: cRow94.mobileNo.drop 2 = "0771234567".toList)
    ∧ (matchesLocal cRowLocal.mobileNo = true
      ∧ validatePhone cRowLocal.mobileNo = some cRowLocal.mobileNo)
    ∧ (matches94 cRowBad.mobileNo = false ∧ matchesLocal cRowBad.mobileNo = false
      ∧ processRow cRowBad cEnvFull = ⟨.skippedInvalidPhone, 'F', []⟩) :=
  ⟨⟨by decide, (C2_phoneNormalization cRow94 cEnvFull).1 (by decide), by decide⟩,
   ⟨by decide, (C2_phoneNormalization cRowLocal cEnvFull).2.1 (by decide)⟩,
   ⟨by decide, by decide,
    (C2_phoneNormalization cRowBad cEnvFull).2.2 (by decide) (by decide)⟩⟩

/-- Claim C4: the retention sweep deletes a PDF of the configured
folder exactly when its creation timestamp is strictly older than
`now` minus seven days; a document at or after that threshold is
retained.  (Stated for a sweep in which every issued deletion
succeeds; a deletion failure is Claim C5's territory.) -/
theorem C4_retentionCutoff (files : List DriveFile) (folderId : Nat) (now : Int)
    (f : DriveFile) (hmem : f ∈ files) (hp : f.parent = folderId)
    (hm : f.mimeType = "application/pdf") (ht : f.trashed = false) :
    f ∈ deleteOldFiles files folderId now (fun _ => true) ↔
      f.createdTime < oneWeekAgo now := by
  unfold deleteOldFiles
  rw [sweepGo_allOk, List.mem_filter]
  simp [listFolderPdfs, List.mem_filter, hmem, hp, hm, ht]

/-- Claim C4, exercised: with the cutoff at timestamp 1, the file
created at 0 is deleted and the file created exactly at the cutoff is
retained. -/
theorem C4_retentionCutoff_witness :
    (cOldFileA ∈ deleteOldFiles [cOldFileA, cFreshFile] 5 cNow (fun _ => true) ↔
      cOldFileA.createdTime < oneWeekAgo cNow)
    ∧ (cFreshFile ∈ deleteOldFiles [cOldFileA, cFreshFile] 5 cNow (fun _ => true) ↔
      cFreshFile.createdTime < oneWeekAgo cNow)
    ∧ cOldFileA.createdTime < oneWeekAgo cNow
    ∧ ¬ cFreshFile.createdTime < oneWeekAgo cNow
    ∧ deleteOldFiles [cOldFileA, cFreshFile] 5 cNow (fun _ => true) = [cOldFileA] :=
  ⟨C4_retentionCutoff _ 5 cNow cOldFileA (by decide) (by decide) (by decide) (by decide),
   C4_retentionCutoff _ 5 cNow cFreshFile (by decide) (by decide) (by decide) (by decide),
   by decide, by decide, by decide⟩

/-- Claim C5 is false on the code: the deletion loop sits inside a
single `try` whose `catch` is outside the loop, so one failed deletion
abandons the whole sweep.  Here both listed PDFs are aged and the
deletion of the second one would succeed (`deleteOk 2 = true`), yet
after the first deletion fails nothing is deleted — the second aged
document is never attempted. -/
theorem C5_counterexample_sweepAborts :
    cOldFileB.createdTime < oneWeekAgo cNow
    ∧ deleteOldFiles [cOldFileA, cOldFileB] 5 cNow (fun id => id != 1) = []
    ∧ deleteOldFiles [cOldFileA, cOldFileB] 5 cNow (fun _ => true) =
        [cOldFileA, cOldFileB] := by
  refine ⟨by decide, by decide, by decide⟩

/-- Claim C5 as amended: deletions are not independent — when the
deletion of an aged document fails, the sweep stops there: every aged
document listed before it has been deleted, and no document listed
after it is attempted; the error is contained in `deleteOldFiles`
(the sweep returns instead of propagating). -/
theorem C5_amended_failureAbortsSweep (cutoff : Int) (deleteOk : Nat → Bool)
    (l₁ l₂ : List DriveFile) (f : DriveFile)
    (haged : f.createdTime < cutoff) (hfail : deleteOk f.id = false)
    (hok : ∀ g ∈ l₁, g.createdTime < cutoff → deleteOk g.id = true) :
    sweepGo cutoff deleteOk (l₁ ++ f :: l₂) =
      l₁.filter (fun g => g.createdTime < cutoff) := by
  induction l₁ with
  | nil => simp [sweepGo, haged, hfail]
  | cons g rest ih =>
    have ih' := ih fun g hg hc => hok g (List.mem_cons_of_mem _ hg) hc
    by_cases hc : g.createdTime < cutoff
    · have hg : deleteOk g.id = true := hok g (List.mem_cons_self _ _) hc
      simp [sweepGo, hc, hg, List.filter_cons, ih']
    · simp [sweepGo, hc, List.filter_cons, ih']

/-- Claim C5 as amended, exercised: with three listed PDFs — an aged
one, an aged one whose deletion fails, and another aged one — the
sweep deletes only the first. -/
theorem C5_amended_failureAbortsSweep_witness :
    sweepGo (oneWeekAgo cNow) (fun id => id != 2) ([cOldFileA] ++ cOldFileB :: [⟨4, "d.pdf", 0, "application/pdf", 5, false⟩]) =
      [cOldFileA].filter (fun g => g.createdTime < oneWeekAgo cNow) :=
  C5_amended_failureAbortsSweep (oneWeekAgo cNow) (fun id => id != 2)
    [cOldFileA] [⟨4, "d.pdf", 0, "application/pdf", 5, false⟩] cOldFileB
    (by decide) (by decide) (by decide)

/-- Claim C1: for a pending row whose upload succeeds, the poll loop
persists `DOWNLOAD = 'T'` for the row's `IDX` before any gateway
notification attempt (first conjunct: any gateway call in the trace is
preceded by the update); once the update succeeds the row ends the
iteration Uploaded for every possible notification outcome (second
conjunct, over an arbitrary `smsEnv`); and the row is uploaded exactly
once regardless of the notification outcome (third conjunct). -/
theorem C1_persistBeforeNotify_noRevert (row : InvoiceRow) (env : RowEnv)
    (phone : List Char) (link : String)
    (hv : validatePhone row.mobileNo = some phone)
    (hu : env.uploadResult = some link) :
    (∀ l₁ p l₂, (processRow row env).trace = l₁ ++ Effect.gatewayCall p :: l₂ →
        Effect.setDownloadT row.idx ∈ l₁)
    ∧ (env.updateOk = true → (processRow row env).finalDownload = 'T')
    ∧ countUploads (processRow row env).trace = 1 := by
  refine ⟨?_, ?_, ?_⟩
  · intro l₁ p l₂ htr
    cases hupd : env.updateOk
    · rw [show (processRow row env).trace = [.uploadAttempt row.fileName] from by
        simp [processRow, hv, hu, hupd]] at htr
      rcases l₁ with _ | ⟨x, l₁⟩ <;> simp at htr
    · rw [show (processRow row env).trace =
          .uploadAttempt row.fileName :: .setDownloadT row.idx ::
            (sendSMS phone row.customerId link env.smsEnv).trace from by
        simp [processRow, hv, hu, hupd]] at htr
      rcases l₁ with _ | ⟨x, _ | ⟨y, l₁⟩⟩
      · simp at htr
      · simp at htr
      · obtain ⟨hx, hy, -⟩ : Effect.uploadAttempt row.fileName = x ∧
            Effect.setDownloadT row.idx = y ∧
            (sendSMS phone row.customerId link env.smsEnv).trace =
              l₁ ++ Effect.gatewayCall p :: l₂ := by simpa using htr
        rw [← hy]
        exact List.mem_cons_of_mem _ (List.mem_cons_self _ _)
  · intro hupd
    simp [processRow, hv, hu, hupd]
  · cases hupd : env.updateOk
    · simp [processRow, hv, hu, hupd, countUploads]
    · have h0 := @sendSMS_countUploads phone row.customerId link env.smsEnv
      simp only [countUploads] at h0
      simp [processRow, hv, hu, hupd, countUploads, List.countP_cons, h0]

/-- Claim C1, exercised on a successful end-to-end row: the
`DOWNLOAD = 'T'` update sits in the trace segment before the gateway
call, the row ends Uploaded, and exactly one upload happened. -/
theorem C1_persistBeforeNotify_noRevert_witness :
    Effect.setDownloadT cRowLocal.idx ∈
        [Effect.uploadAttempt "f.pdf", Effect.setDownloadT 1]
    ∧ (processRow cRowLocal cEnvFull).finalDownload = 'T'
    ∧ countUploads (processRow cRowLocal cEnvFull).trace = 1 :=
  ⟨(C1_persistBeforeNotify_noRevert cRowLocal cEnvFull "0771234567".toList
      "https://drive/x" (by decide) rfl).1
      [Effect.uploadAttempt "f.pdf", Effect.setDownloadT 1]
      "0771234567".toList
      [Effect.insertLog 7 "user".toList "pw".toList "0771234567".toList
        "https://drive/x"]
      (by decide),
   (C1_persistBeforeNotify_noRevert cRowLocal cEnvFull "0771234567".toList
      "https://drive/x" (by decide) rfl).2.1 rfl,
   (C1_persistBeforeNotify_noRevert cRowLocal cEnvFull "0771234567".toList
      "https://drive/x" (by decide) rfl).2.2⟩

/-- Claim C7: when the customer's SMS profile is missing or its
opt-in flag is not `'T'`, the notification is suppressed — `sendSMS`
makes no gateway request and writes no log record — and the row still
ends the iteration in the Uploaded state. -/
theorem C7_suppressedStillUploaded (row : InvoiceRow) (env : RowEnv)
    (phone : List Char) (link : String)
    (hv : validatePhone row.mobileNo = some phone)
    (hu : env.uploadResult = some link) (hupd : env.updateOk = true)
    (hsup : env.smsEnv.profile = none ∨
      ∃ prof, env.smsEnv.profile = some prof ∧ prof.smartInvoiceActive ≠ 'T') :
    (sendSMS phone row.customerId link env.smsEnv).trace = []
    ∧ (processRow row env).finalDownload = 'T'
    ∧ (processRow row env).trace =
        [.uploadAttempt row.fileName, .setDownloadT row.idx] := by
  have htr : (sendSMS phone row.customerId link env.smsEnv).trace = [] := by
    rcases hsup with h | ⟨prof, hp, hna⟩
    · simp [sendSMS, h]
    · simp [sendSMS, hp, hna]
  refine ⟨htr, ?_, ?_⟩
  · simp [processRow, hv, hu, hupd]
  · simp [processRow, hv, hu, hupd, htr]

/-- Claim C7, exercised: opted-out customer — empty `sendSMS` trace
(no HTTP request, no log insert), row Uploaded, and the row's whole
trace is just the upload and the flag update. -/
theorem C7_suppressedStillUploaded_witness :
    (sendSMS "0771234567".toList cRowLocal.customerId "https://drive/x"
        cEnvInactive.smsEnv).trace = []
    ∧ (processRow cRowLocal cEnvInactive).finalDownload = 'T'
    ∧ (processRow cRowLocal cEnvInactive).trace =
        [.uploadAttempt cRowLocal.fileName, .setDownloadT cRowLocal.idx] :=
  C7_suppressedStillUploaded cRowLocal cEnvInactive "0771234567".toList
    "https://drive/x" (by decide) rfl rfl
    (Or.inr ⟨cProfileInactive, rfl, by decide⟩)

/-- Claim C10 (implicit invariant): every phone number the poll loop
hands to the notification gateway is in local form — `'0'` followed by
exactly nine digits, ten characters in all. -/
theorem C10_gatewayPhoneLocalForm (row : InvoiceRow) (env : RowEnv) (p : List Char)
    (hmem : Effect.gatewayCall p ∈ (processRow row env).trace) :
    matchesLocal p = true ∧ p.length = 10 := by
  rcases hv : validatePhone row.mobileNo with _ | phone
  · rw [show (processRow row env).trace = [] from by simp [processRow, hv]] at hmem
    simp at hmem
  · rcases hu : env.uploadResult with _ | link
    · rw [show (processRow row env).trace = [.uploadAttempt row.fileName] from by
        simp [processRow, hv, hu]] at hmem
      simp at hmem
    · cases hupd : env.updateOk
      · rw [show (processRow row env).trace = [.uploadAttempt row.fileName] from by
          simp [processRow, hv, hu, hupd]] at hmem
        simp at hmem
      · rw [show (processRow row env).trace =
            .uploadAttempt row.fileName :: .setDownloadT row.idx ::
              (sendSMS phone row.customerId link env.smsEnv).trace from by
          simp [processRow, hv, hu, hupd]] at hmem
        simp only [List.mem_cons] at hmem
        rcases hmem with h | h | h
        · exact absurd h (by simp)
        · exact absurd h (by simp)
        · obtain rfl : p = phone := sendSMS_gatewayCall_eq h
          have hl := validatePhone_localForm hv
          exact ⟨hl, matchesLocal_length hl⟩

/-- Claim C10, exercised: the phone reaching the gateway in the
successful end-to-end run is `0771234567` — local form, ten
characters. -/
theorem C10_gatewayPhoneLocalForm_witness :
    matchesLocal "0771234567".toList = true
    ∧ ("0771234567".toList).length = 10 :=
  C10_gatewayPhoneLocalForm cRowLocal cEnvFull "0771234567".toList (by decide)

/-- Claim C3 is false on the code in its last part: `connectToDatabase`
calls `process.exit(1)` when it has to establish a fresh pool and the
connection fails, so a database connection failure during a tick
*does* terminate the process. -/
theorem C3_counterexample_connectFailureExits :
    runTick ⟨false, false, true, [], []⟩ = .exited 1 := by decide

/-- Claim C3 as amended: row-level errors are absorbed at the row
boundary and every pending row of the tick is still processed;
a query failure on an established pool aborts only the tick; the
startup catch exits non-zero on an authentication failure; but in
addition, a failed fresh pool connection inside a tick exits the
process with code 1. -/
theorem C3_amended_errorPropagation (env : TickEnv) :
    ((env.poolExists = true ∨ env.connectOk = true) →
      (runTick env).isExit = false)
    ∧ (env.poolExists = false → env.connectOk = false →
      runTick env = .exited 1)
    ∧ ((env.poolExists = true ∨ env.connectOk = true) → env.queryOk = false →
      runTick env = .tickAborted)
    ∧ ((env.poolExists = true ∨ env.connectOk = true) → env.queryOk = true →
      runTick env = .completed (processRows env.rows env.rowEnvs))
    ∧ (env.rowEnvs.length = env.rows.length →
      (processRows env.rows env.rowEnvs).length = env.rows.length)
    ∧ (∀ msg, startupExitCode (.failure msg) = some 1) := by
  have hpool : (env.poolExists = true ∨ env.connectOk = true) →
      connectToDatabase env.poolExists env.connectOk = .gotPool := by
    rintro (h | h) <;> simp [connectToDatabase, h]
  refine ⟨?_, ?_, ?_, ?_, ?_, fun msg => rfl⟩
  · intro h
    cases hq : env.queryOk <;> simp [runTick, hpool h, hq, TickResult.isExit]
  · intro h1 h2
    simp [runTick, connectToDatabase, h1, h2]
  · intro h hq
    simp [runTick, hpool h, hq]
  · intro h hq
    simp [runTick, hpool h, hq]
  · intro h
    simp [processRows, List.length_zipWith, h]

/-- Claim C3 as amended, exercised: a query failure on a live pool
only aborts the tick; a successful tick processes its one row; the
startup catch maps an authentication failure to exit code 1; and a
fresh-connection failure exits with code 1. -/
theorem C3_amended_errorPropagation_witness :
    (runTick cTickQueryFail).isExit = false
    ∧ runTick cTickQueryFail = .tickAborted
    ∧ runTick cTickOk = .completed (processRows cTickOk.rows cTickOk.rowEnvs)
    ∧ (processRows cTickOk.rows cTickOk.rowEnvs).length = cTickOk.rows.length
    ∧ startupExitCode (.failure "auth failed") = some 1
    ∧ runTick ⟨false, false, false, [], []⟩ = .exited 1 :=
  ⟨(C3_amended_errorPropagation cTickQueryFail).1 (Or.inl rfl),
   (C3_amended_errorPropagation cTickQueryFail).2.2.1 (Or.inl rfl) rfl,
   (C3_amended_errorPropagation cTickOk).2.2.2.1 (Or.inl rfl) rfl,
   (C3_amended_errorPropagation cTickOk).2.2.2.2.1 rfl,
   (C3_amended_errorPropagation cTickOk).2.2.2.2.2 "auth failed",
   (C3_amended_errorPropagation ⟨false, false, false, [], []⟩).2.1 rfl rfl⟩

/-- Claim C6 is false on the code as stated: the code compares
`res[0].trim()`, not `res[0]`, against `"OK"`.  On the gateway
response `OK :123` the first colon-delimited token is `"OK "` — not
equal to `"OK"` — yet the code trims it, reports success and persists
the log record. -/
theorem C6_counterexample_trimmedToken :
    (jsSplit ':' (jsTrim "OK :123".toList)).headD [] ≠ "OK".toList
    ∧ (sendSMS "0771234567".toList 7 "L"
        ⟨some cProfileActive, some "OK :123".toList⟩).outcome =
          .sent (some "123".toList)
    ∧ Effect.insertLog 7 "user".toList "pw".toList "0771234567".toList "L" ∈
        (sendSMS "0771234567".toList 7 "L"
          ⟨some cProfileActive, some "OK :123".toList⟩).trace := by
  refine ⟨by decide, by decide, by decide⟩

/-- Claim C6 as amended: for an opted-in customer with a gateway
response, the trimmed response is split on `':'` and the *trimmed*
first token is compared case-sensitively against `"OK"`; exactly when
it matches, the log record (customer, trimmed credentials, phone,
link) is persisted; otherwise nothing is persisted and the outcome is
a gateway rejection carrying the second token as detail. -/
theorem C6_amended_responseParsing (phone : List Char) (cid : Nat) (link : String)
    (prof : SMSProfile) (respData : List Char) (env : SMSEnv)
    (hp : env.profile = some prof) (ha : prof.smartInvoiceActive = 'T')
    (hr : env.gatewayResponse = some respData) :
    (jsTrim ((jsSplit ':' (jsTrim respData)).headD []) = "OK".toList →
      sendSMS phone cid link env =
        ⟨.sent ((jsSplit ':' (jsTrim respData)).get? 1),
         [.gatewayCall phone,
          .insertLog cid (jsTrim prof.smsUsername) (jsTrim prof.smsPassword)
            phone link]⟩)
    ∧ (jsTrim ((jsSplit ':' (jsTrim respData)).headD []) ≠ "OK".toList →
      sendSMS phone cid link env =
        ⟨.gatewayRejected ((jsSplit ':' (jsTrim respData)).get? 1),
         [.gatewayCall phone]⟩) := by
  constructor <;> intro hok
  · simp only [sendSMS, hp, hr]
    rw [if_pos ha, if_pos hok]
  · simp only [sendSMS, hp, hr]
    rw [if_pos ha, if_neg hok]

/-- Claim C6 as amended, exercised: response `OK:123` persists the
log record and reports the message id; response `ERR:no credit` makes
no log insert and carries the detail `no credit`. -/
theorem C6_amended_responseParsing_witness :
    sendSMS "0771234567".toList 7 "L" cSmsEnvOk =
      ⟨.sent ((jsSplit ':' (jsTrim "OK:123".toList)).get? 1),
       [.gatewayCall "0771234567".toList,
        .insertLog 7 (jsTrim "user".toList) (jsTrim "pw".toList)
          "0771234567".toList "L"]⟩
    ∧ sendSMS "0771234567".toList 7 "L" cSmsEnvFail =
      ⟨.gatewayRejected ((jsSplit ':' (jsTrim "ERR:no credit".toList)).get? 1),
       [.gatewayCall "0771234567".toList]⟩ :=
  ⟨(C6_amended_responseParsing "0771234567".toList 7 "L" cProfileActive
      "OK:123".toList cSmsEnvOk rfl rfl rfl).1 (by decide),
   (C6_amended_responseParsing "0771234567".toList 7 "L" cProfileActive
      "ERR:no credit".toList cSmsEnvFail rfl rfl rfl).2 (by decide)⟩

/-- Claim C8 is false on the code for the post-interactive path: the
listener registered after manual authentication writes `{ ...tokens }`
— a wholesale copy of the refresh event — so a previously persisted
`refresh_token` absent from the event is dropped, while the
load-existing-token path's `{ ...token, ...tokens }` preserves it. -/
theorem C8_counterexample_manualListenerReplaces :
    TokenRecord.get [("refresh_token", "r"), ("access_token", "a")]
        "refresh_token" = some "r"
    ∧ manualTokensListener [("access_token", "b")] = [("access_token", "b")]
    ∧ TokenRecord.get (manualTokensListener [("access_token", "b")])
        "refresh_token" = none
    ∧ TokenRecord.get
        (existingTokensListener [("refresh_token", "r"), ("access_token", "a")]
          [("access_token", "b")]) "refresh_token" = some "r" := by
  refine ⟨by decide, rfl, by decide, by decide⟩

/-- Claim C8 as amended: on the load-existing-token path a refresh is
persisted by merging the event's fields over the token record loaded
at startup — fields absent from the event (such as `refresh_token`)
keep their previous value, fields present in it are overwritten; on
the post-interactive-authentication path the persisted record is
replaced wholesale by the event's fields. -/
theorem C8_amended_listenerPersistence (startupToken eventTokens : TokenRecord)
    (k v : String) :
    (TokenRecord.get eventTokens k = none →
      TokenRecord.get (existingTokensListener startupToken eventTokens) k =
        TokenRecord.get startupToken k)
    ∧ ((eventTokens.map Prod.fst).Nodup →
      TokenRecord.get eventTokens k = some v →
      TokenRecord.get (existingTokensListener startupToken eventTokens) k =
        some v)
    ∧ manualTokensListener eventTokens = eventTokens :=
  ⟨jsSpread_get_absent eventTokens startupToken k,
   fun hnd h => jsSpread_get_present eventTokens startupToken k v hnd h,
   rfl⟩

/-- Claim C8 as amended, exercised on a refresh event carrying only a
new access token: the existing-token listener keeps `refresh_token`
and overwrites `access_token`; the manual listener persists exactly
the event. -/
theorem C8_amended_listenerPersistence_witness :
    TokenRecord.get
        (existingTokensListener [("refresh_token", "r"), ("access_token", "a")]
          [("access_token", "b")]) "refresh_token" =
      TokenRecord.get [("refresh_token", "r"), ("access_token", "a")]
        "refresh_token"
    ∧ TokenRecord.get
        (existingTokensListener [("refresh_token", "r"), ("access_token", "a")]
          [("access_token", "b")]) "access_token" = some "b"
    ∧ manualTokensListener [("access_token", "b")] = [("access_token", "b")] :=
  ⟨(C8_amended_listenerPersistence [("refresh_token", "r"), ("access_token", "a")]
      [("access_token", "b")] "refresh_token" "").1 (by decide),
   (C8_amended_listenerPersistence [("refresh_token", "r"), ("access_token", "a")]
      [("access_token", "b")] "access_token" "b").2.1 (by decide) (by decide),
   (C8_amended_listenerPersistence [] [("access_token", "b")] "" "").2.2⟩

/-- Claim C9 is false on the code: with a persisted credential that
has a refresh token and a proactive refresh reporting `invalid_grant`,
the thrown error is caught by the `catch (tokenErr)` around the token
branch, and `authorize` falls through to the interactive manual
authentication flow in the same call — it does not fail there. -/
theorem C9_counterexample_invalidGrantFallsThrough :
    c9Env.tokenFileExists = true
    ∧ (c9Env.tokenFile.map fun t =>
        (TokenRecord.get t "refresh_token").isSome) = some true
    ∧ c9Env.refreshOutcome = .invalidGrant
    ∧ authorize c9Env = .manualClient [("refresh_token", "r2"), ("access_token", "b")]
    ∧ (authorize c9Env).isFailure = false := by
  refine ⟨rfl, by decide, rfl, by decide, by decide⟩

/-- Claim C9 as amended: on an explicit invalid-grant signal during
the proactive refresh, the persisted-token branch returns nothing and
`authorize` continues with the interactive manual authentication flow
within the same call; the call fails only if that flow itself fails. -/
theorem C9_amended_invalidGrantManualFlow (env : AuthEnv) (token : TokenRecord)
    (hc : env.credentialsOk = true) (hf : env.tokenFileExists = true)
    (ht : env.tokenFile = some token)
    (hr : (TokenRecord.get token "refresh_token").isSome = true)
    (hi : env.refreshOutcome = .invalidGrant) :
    tokenPathReturn env = none ∧ authorize env = manualAuthFlow env := by
  have hnone : (TokenRecord.get token "refresh_token").isNone = false := by
    rcases hx : TokenRecord.get token "refresh_token" with _ | v
    · rw [hx] at hr
      simp at hr
    · rfl
  have htp : tokenPathReturn env = none := by
    simp [tokenPathReturn, hf, ht, hnone, hi]
  exact ⟨htp, by simp [authorize, hc, htp]⟩

/-- Claim C9 as amended, exercised: on the concrete invalid-grant
environment the token branch yields nothing and `authorize` equals
the manual flow's result. -/
theorem C9_amended_invalidGrantManualFlow_witness :
    tokenPathReturn c9Env = none ∧ authorize c9Env = manualAuthFlow c9Env :=
  C9_amended_invalidGrantManualFlow c9Env
    [("refresh_token", "r"), ("access_token", "a")] rfl rfl rfl (by decide) rfl
